import Mathlib

set_option linter.all false
set_option maxRecDepth 16384

namespace SmartTravelScout

/-!
Shallow embedding of the server-side search pipeline of
`src/app/api/search/route.ts` together with the inventory of
`src/lib/data.ts`.  JS strings are modelled as Lean `String`s and the
string primitives the route uses (`toLowerCase`, `trim`, `length`,
`includes`, the two budget regexes and the word tests) are written out
over `List Char`, faithful to the ECMAScript semantics on the character
ranges this pipeline can meet.
-/

-- ## JS string primitives used by the route

/-- Character class of the JS regex `\s` (also the set removed by
`String.prototype.trim`), restricted to the code points relevant here. -/
def isSpaceCh (c : Char) : Bool :=
  c = ' ' || c = '\t' || c = '\n' || c = '\r' || c = '\x0b' || c = '\x0c' || c = ' '

/-- JS regex `\d`. -/
def isDigitCh (c : Char) : Bool := '0' ≤ c && c ≤ '9'

/-- JS regex `\w` (word character, the class that defines `\b` boundaries). -/
def isWordCh (c : Char) : Bool :=
  ('a' ≤ c && c ≤ 'z') || ('A' ≤ c && c ≤ 'Z') || isDigitCh c || c = '_'

def lowerCh (c : Char) : Char :=
  if 'A' ≤ c && c ≤ 'Z' then Char.ofNat (c.toNat + 32) else c

/-- `String.prototype.toLowerCase` (ASCII range). -/
def jsToLower (s : String) : String := ⟨s.data.map lowerCh⟩

/-- `String.prototype.trim`. -/
def jsTrim (s : String) : String :=
  ⟨((s.data.dropWhile isSpaceCh).reverse.dropWhile isSpaceCh).reverse⟩

/-- JS `String.prototype.length` (UTF-16 units; the pipeline only meets ASCII,
where this is the character count). -/
def jsLength (s : String) : Nat := s.data.length

/-- Literal match: returns the remaining input after the literal, if the
input starts with it. -/
def matchLit : List Char → List Char → Option (List Char)
  | [], s => some s
  | _ :: _, [] => none
  | l :: ls, c :: cs => if l = c then matchLit ls cs else none

/-- JS `String.prototype.includes` on `List Char`. -/
def isInfixOfB (needle : List Char) : List Char → Bool
  | [] => (matchLit needle []).isSome
  | c :: rest => (matchLit needle (c :: rest)).isSome || isInfixOfB needle rest

/-- `parseInt(·, 10)` on a non-empty digit string. -/
def digitsToNat (ds : List Char) : Nat :=
  ds.foldl (fun n c => n * 10 + (c.toNat - 48)) 0

-- ## Budget extraction (`extractBudget`, `wantsExpensive` in route.ts)

/-- Tail `\s*\$?\s*(\d+)` of the explicit-budget regex: optional spaces, an
optional dollar sign, optional spaces, then at least one digit (the capture).
The character classes are pairwise disjoint, so greedy matching needs no
backtracking. -/
def budgetTail (s : List Char) : Option Nat :=
  let s1 := s.dropWhile isSpaceCh
  let s2 := match s1 with
    | '$' :: r => r
    | _ => s1
  let s3 := s2.dropWhile isSpaceCh
  let ds := s3.takeWhile isDigitCh
  if ds.isEmpty then none else some (digitsToNat ds)

/-- `less\s+than` alternative. -/
def lessThanAt (s : List Char) : Option (List Char) :=
  match matchLit "less".data s with
  | none => none
  | some r =>
    if (r.takeWhile isSpaceCh).isEmpty then none
    else matchLit "than".data (r.dropWhile isSpaceCh)

/-- `up\s+to` alternative. -/
def upToAt (s : List Char) : Option (List Char) :=
  match matchLit "up".data s with
  | none => none
  | some r =>
    if (r.takeWhile isSpaceCh).isEmpty then none
    else matchLit "to".data (r.dropWhile isSpaceCh)

/-- `max(?:imum)?` followed by the budget tail; the optional `imum` is tried
greedily first, with the engine's backtracking to plain `max`. -/
def maxAt (s : List Char) : Option Nat :=
  match matchLit "max".data s with
  | none => none
  | some r =>
    match matchLit "imum".data r with
    | some r2 =>
      match budgetTail r2 with
      | some n => some n
      | none => budgetTail r
    | none => budgetTail r

/-- One attempt of
`(?:under|below|less\s+than|within|up\s+to|max(?:imum)?)\s*\$?\s*(\d+)`
at a fixed position.  The keyword alternatives have pairwise-incompatible
prefixes, so at most one of them can match at a given position. -/
def explicitAt (s : List Char) : Option Nat :=
  match matchLit "under".data s with
  | some r => budgetTail r
  | none =>
  match matchLit "below".data s with
  | some r => budgetTail r
  | none =>
  match lessThanAt s with
  | some r => budgetTail r
  | none =>
  match matchLit "within".data s with
  | some r => budgetTail r
  | none =>
  match upToAt s with
  | some r => budgetTail r
  | none => maxAt s

/-- Leftmost match of the explicit-budget regex (JS `String.match`). -/
def explicitScan : List Char → Option Nat
  | [] => none
  | s@(_ :: rest) =>
    match explicitAt s with
    | some n => some n
    | none => explicitScan rest

/-- `or\s+(?:less|under|below)` part of the suffix regex. -/
def orSuffix (s : List Char) : Bool :=
  match matchLit "or".data s with
  | none => false
  | some r =>
    if (r.takeWhile isSpaceCh).isEmpty then false
    else
      let r2 := r.dropWhile isSpaceCh
      (matchLit "less".data r2).isSome || (matchLit "under".data r2).isSome ||
        (matchLit "below".data r2).isSome

/-- One attempt of `\$\s*(\d+)\s*(?:or\s+(?:less|under|below)|max(?:imum)?)`
at a fixed position. -/
def suffixAt (s : List Char) : Option Nat :=
  match s with
  | '$' :: r =>
    let r1 := r.dropWhile isSpaceCh
    let ds := r1.takeWhile isDigitCh
    if ds.isEmpty then none
    else
      let r2 := (r1.dropWhile isDigitCh).dropWhile isSpaceCh
      if orSuffix r2 || (matchLit "max".data r2).isSome then some (digitsToNat ds)
      else none
  | _ => none

/-- Leftmost match of the suffix-budget regex. -/
def suffixScan : List Char → Option Nat
  | [] => none
  | s@(_ :: rest) =>
    match suffixAt s with
    | some n => some n
    | none => suffixScan rest

/-- A word alternative with its trailing `\b`. -/
def wordEnd : List Char → Bool
  | [] => true
  | c :: _ => !isWordCh c

def litWord (w : List Char) (s : List Char) : Bool :=
  match matchLit w s with
  | some rest => wordEnd rest
  | none => false

/-- `a[- ]?b` with trailing `\b`: the optional separator is tried greedily
first, then dropped (regex backtracking). -/
def hyphenWord (a b : List Char) (s : List Char) : Bool :=
  match matchLit a s with
  | none => false
  | some r =>
    (match r with
     | c :: r2 => (c = '-' || c = ' ') && litWord b r2
     | [] => false) || litWord b r

/-- Alternatives of `\b(cheap|budget|affordable|low[- ]?cost|inexpensive)\b`
at a fixed position (with the trailing boundary). -/
def cheapAt (s : List Char) : Bool :=
  litWord "cheap".data s || litWord "budget".data s || litWord "affordable".data s ||
    hyphenWord "low".data "cost".data s || litWord "inexpensive".data s

/-- Alternatives of `\b(expensive|luxury|luxurious|premium|high[- ]?end|splurge)\b`
at a fixed position. -/
def expensiveAt (s : List Char) : Bool :=
  litWord "expensive".data s || litWord "luxury".data s || litWord "luxurious".data s ||
    litWord "premium".data s || hyphenWord "high".data "end".data s ||
    litWord "splurge".data s

/-- Scan for a `\b(...)\b` word test; the Bool argument records whether the
current position sits at a word boundary. -/
def wordScan (p : List Char → Bool) : Bool → List Char → Bool
  | bnd, [] => bnd && p []
  | bnd, c :: rest => (bnd && p (c :: rest)) || wordScan p (!isWordCh c) rest

/-- `extractBudget` of route.ts: explicit `under/below/less than/within/up
to/max N` first, then the `$N or less` suffix form, then the qualitative-word
fallback 60. -/
def extractBudget (query : String) : Option Nat :=
  let lower := (jsToLower query).data
  match explicitScan lower with
  | some n => some n
  | none =>
  match suffixScan lower with
  | some n => some n
  | none => if wordScan cheapAt true lower then some 60 else none

/-- `wantsExpensive` of route.ts: luxury words give a 200 floor. -/
def wantsExpensive (query : String) : Option Nat :=
  let lower := (jsToLower query).data
  if wordScan expensiveAt true lower then some 200 else none

-- ## Inventory (`src/lib/data.ts`)

structure TravelPackage where
  id : Nat
  title : String
  location : String
  price : Nat
  tags : List String
deriving DecidableEq, Repr

/-- `travelPackages` of data.ts. -/
def travelPackages : List TravelPackage := [
  ⟨1, "High-Altitude Tea Trails", "Nuwara Eliya", 120, ["cold", "nature", "hiking"]⟩,
  ⟨2, "Coastal Heritage Wander", "Galle Fort", 45, ["history", "culture", "walking"]⟩,
  ⟨3, "Wild Safari Expedition", "Yala", 250, ["animals", "adventure", "photography"]⟩,
  ⟨4, "Surf & Chill Retreat", "Arugam Bay", 80, ["beach", "surfing", "young-vibe"]⟩,
  ⟨5, "Ancient City Exploration", "Sigiriya", 110, ["history", "climbing", "view"]⟩]

/-- `VALID_IDS` of data.ts (`new Set(travelPackages.map(p => p.id))`). -/
def VALID_IDS : List Nat := travelPackages.map (·.id)

/-- Membership in `VALID_IDS` for a JSON integer. -/
def validId (i : Int) : Bool := VALID_IDS.any (fun v => decide ((v : Int) = i))

/-- Modelled from the spec: the `packageById` id-to-item index is imported by
the route from `src/lib/data.ts` but its definition is not in the sources;
spec §3 describes it as "a derived `byId` (id → item) index ... computed once"
from the inventory. -/
def packageById (i : Int) : Option TravelPackage :=
  travelPackages.find? (fun p => decide ((p.id : Int) = i))

-- ## JSON values and the zod schemas of route.ts

/-- JSON values, as produced by `JSON.parse` of the LLM reply or of the
request body.  Numbers are modelled as integers (a non-integer `id` would be
rejected by `z.number().int()` anyway, and no other number reaches the
schemas). -/
inductive Json where
  | null
  | bool (b : Bool)
  | num (n : Int)
  | str (s : String)
  | arr (xs : List Json)
  | obj (fields : List (String × Json))

/-- Generic first-occurrence lookup, modelling both JS `Map.get` and JS
object property access. -/
def mapGet {α : Type} (m : List (String × α)) (k : String) : Option α :=
  match m.find? (fun e => decide (e.1 = k)) with
  | some e => some e.2
  | none => none

/-- JS `Map.set` (the new binding shadows any older one). -/
def mapSet {α : Type} (m : List (String × α)) (k : String) (v : α) : List (String × α) :=
  (k, v) :: m

/-- JS `Map.delete`. -/
def mapDel {α : Type} (m : List (String × α)) (k : String) : List (String × α) :=
  m.filter (fun e => !(decide (e.1 = k)))

structure Match where
  id : Int
  reason : String
deriving DecidableEq, Repr

/-- `MatchSchema.safeParse` on one element of the `matches` array: `id` must
be an (integer) number belonging to `VALID_IDS` and `reason` a string of
length 1..200. -/
def parseMatch : Json → Option Match
  | .obj fields =>
    match mapGet fields "id", mapGet fields "reason" with
    | some (.num i), some (.str r) =>
      if validId i && decide (1 ≤ jsLength r) && decide (jsLength r ≤ 200) then
        some ⟨i, r⟩
      else none
    | _, _ => none
  | _ => none

/-- Element-wise validation of the `matches` array: any failing element fails
the whole array (zod reports the issue instead of dropping the item). -/
def parseMatches : List Json → Option (List Match)
  | [] => some []
  | j :: rest =>
    match parseMatch j, parseMatches rest with
    | some m, some ms => some (m :: ms)
    | _, _ => none

/-- `AIResponseSchema.safeParse`: a top-level object with a `matches` array of
at most 5 valid match objects. -/
def parseAIResponse : Json → Option (List Match)
  | .obj fields =>
    match mapGet fields "matches" with
    | some (.arr xs) => if xs.length ≤ 5 then parseMatches xs else none
    | _ => none
  | _ => none

-- ## Request validation (`RequestSchema` in route.ts)

def MAX_QUERY_LENGTH : Nat := 500

def emptyQueryMsg : String := "Please describe the kind of trip you\x27re looking for."
def queryTooLongMsg : String := "Query must be 500 characters or fewer."
/-- Stand-in for the zod-generated message of a malformed body (missing or
non-string `query`, non-object body); the route forwards
`issues[0].message`, whose exact text for those cases comes from the zod
library, not from this repository. -/
def invalidBodyMsg : String := "Invalid request body."

/-- `RequestSchema.safeParse` composed with the route's error-message pick:
the body must be an object with a string `query`; the string is trimmed and
its trimmed length must lie in `[1, 500]`. -/
def validateRequest : Option Json → Except String String
  | some (.obj fields) =>
    match mapGet fields "query" with
    | some (.str s) =>
      let t := jsTrim s
      if jsLength t < 1 then .error emptyQueryMsg
      else if jsLength t > MAX_QUERY_LENGTH then .error queryTooLongMsg
      else .ok t
    | _ => .error invalidBodyMsg
  | _ => .error invalidBodyMsg

-- ## Rate limiter (`isRateLimited` in route.ts)

structure RateLimitEntry where
  count : Nat
  resetAt : Nat
deriving DecidableEq, Repr

abbrev RateMap := List (String × RateLimitEntry)

def windowMs : Nat := 60000
def maxRequests : Nat := 10

/-- `isRateLimited(ip)` with `Date.now()` passed explicitly and the module
map threaded as state.  Returns (limited?, updated map). -/
def isRateLimited (now : Nat) (m : RateMap) (ip : String) : Bool × RateMap :=
  match mapGet m ip with
  | none => (false, mapSet m ip ⟨1, now + windowMs⟩)
  | some entry =>
    if now > entry.resetAt then (false, mapSet m ip ⟨1, now + windowMs⟩)
    else if entry.count ≥ maxRequests then (true, m)
    else (false, mapSet m ip ⟨entry.count + 1, entry.resetAt⟩)

/-- A run of requests from one client at the given times, starting from the
given map; returns the per-request limited? flags. -/
def rlRun (ip : String) : List Nat → RateMap → List Bool
  | [], _ => []
  | t :: ts, m =>
    let r := isRateLimited t m ip
    r.1 :: rlRun ip ts r.2

-- ## Response cache (`promptCache` in route.ts)

def CACHE_TTL_MS : Nat := 5 * 60000

/-- A cache entry stores only the match list (`CacheEntry.data` has no hint
field in route.ts). -/
structure CacheEntry where
  data : List Match
  expiresAt : Nat
deriving DecidableEq, Repr

abbrev CacheMap := List (String × CacheEntry)

/-- Cache key normalization: `query.toLowerCase().trim()`. -/
def normKey (query : String) : String := jsTrim (jsToLower query)

/-- `getCached`, with lazy eviction of an expired entry (returns the possibly
shrunk cache). -/
def getCached (now : Nat) (cache : CacheMap) (query : String) :
    Option (List Match) × CacheMap :=
  let key := normKey query
  match mapGet cache key with
  | none => (none, cache)
  | some entry =>
    if now > entry.expiresAt then (none, mapDel cache key)
    else (some entry.data, cache)

/-- `setCache`. -/
def setCache (now : Nat) (cache : CacheMap) (query : String) (data : List Match) :
    CacheMap :=
  mapSet cache (normKey query) ⟨data, now + CACHE_TTL_MS⟩

-- ## Keyword shortcut (`TAG_KEYWORD_MAP`, `tryKeywordMatch` in route.ts)

def TAG_KEYWORD_MAP : List (String × List String) := [
  ("beaches", ["beach"]),
  ("beach", ["beach"]),
  ("nature", ["nature"]),
  ("culture", ["culture", "history"]),
  ("adventure", ["adventure"]),
  ("hiking", ["hiking"]),
  ("surfing", ["surfing"]),
  ("history", ["history", "culture"]),
  ("wildlife", ["animals"]),
  ("safari", ["animals"]),
  ("photography", ["photography"]),
  ("climbing", ["climbing"]),
  ("walking", ["walking"])]

/-- Reason string `Matched '<t1>', '<t2>' tag(s).` built from the overlap. -/
def mkReason (overlap : List String) : String :=
  "Matched \x27" ++ String.intercalate "\x27, \x27" overlap ++ "\x27 tag" ++
    (if overlap.length > 1 then "s" else "") ++ "."

/-- `tryKeywordMatch`: answers directly from the inventory when the
normalized query is a key of the map. -/
def tryKeywordMatch (query : String) : Option (List Match) :=
  let lower := jsTrim (jsToLower query)
  match mapGet TAG_KEYWORD_MAP lower with
  | none => none
  | some tags =>
    some (travelPackages.filterMap (fun pkg =>
      let overlap := pkg.tags.filter (fun t => tags.contains t)
      if overlap.length > 0 then some ⟨(pkg.id : Int), mkReason overlap⟩ else none))

-- ## Budget re-filter (step 8 of POST)

def ceilingPred (c : Nat) (m : Match) : Bool :=
  match packageById m.id with
  | some pkg => decide (pkg.price ≤ c)
  | none => false

def floorPred (f : Nat) (m : Match) : Bool :=
  match packageById m.id with
  | some pkg => decide (f ≤ pkg.price)
  | none => false

/-- The ceiling/elif-floor filter applied both on the keyword path (step 5)
and after schema validation (step 8): the floor is consulted only when no
ceiling was extracted. -/
def applyBudgetFilter (query : String) (ms : List Match) : List Match :=
  match extractBudget query with
  | some c => ms.filter (ceilingPred c)
  | none =>
    match wantsExpensive query with
    | some f => ms.filter (floorPred f)
    | none => ms

-- ## Hint synthesis (step 9 of POST)

/-- `Math.min(...travelPackages.map(p => p.price))`. -/
def minPriceVal : Nat :=
  match travelPackages.map (·.price) with
  | [] => 0
  | p :: ps => ps.foldl Nat.min p

def conflictPairs : List (List String × List String) := [
  (["beach", "surf", "coast", "ocean"], ["cold", "mountain", "snow", "highland"]),
  (["surfing", "diving", "snorkel"], ["climbing", "hiking", "trek"])]

def conflictMsg : String :=
  "Your request combines things that don’t overlap in our collection. Try focusing on one vibe or activity."

/-- The conflicting-vibes scan: first pair both of whose sides occur as
substrings of the lowercased query. -/
def conflictHint (query : String) : Option String :=
  let lower := (jsToLower query).data
  match conflictPairs.find? (fun pr =>
    pr.1.any (fun t => isInfixOfB t.data lower) &&
      pr.2.any (fun t => isInfixOfB t.data lower)) with
  | some _ => some conflictMsg
  | none => none

/-- The hint decision table of step 9, evaluated when the filtered match list
is empty. -/
def synthHint (query : String) : Option String :=
  match extractBudget query with
  | some c =>
    let withinBudget := travelPackages.filter (fun p => decide (p.price ≤ c))
    if withinBudget.length = 0 then
      some ("No experiences fit a $" ++ toString c ++
        " budget. Our most affordable option starts at $" ++ toString minPriceVal ++
        ". Try increasing your budget.")
    else
      some ("No experiences match all your criteria within $" ++ toString c ++ ". " ++
        toString withinBudget.length ++ " option" ++
        (if withinBudget.length > 1 then "s" else "") ++ " exist" ++
        (if withinBudget.length = 1 then "s" else "") ++
        " in that price range — try broadening your interests.")
  | none =>
    match wantsExpensive query with
    | some f =>
      let aboveFloor := travelPackages.filter (fun p => decide (f ≤ p.price))
      if aboveFloor.length = 0 then
        some ("No experiences are priced at $" ++ toString f ++
          "+. Try lowering your expectations or exploring mid-range options.")
      else
        some ("No experiences match your criteria at the $" ++ toString f ++
          "+ price point. Try broadening your interests.")
    | none => conflictHint query

-- ## The POST handler (steps 1-10 of route.ts)

/-- `SearchResponse`: hint present only when the route spreads `{hint}` in. -/
structure SearchResponse where
  «matches» : List Match
  hint : Option String
deriving DecidableEq, Repr

/-- An HTTP outcome: `NextResponse.json(body, {status})`. -/
inductive ApiResult where
  | ok (status : Nat) (resp : SearchResponse)
  | err (status : Nat) (msg : String)
deriving DecidableEq, Repr

/-- The in-memory module state the handler reads and writes, plus the clock. -/
structure PipelineState where
  now : Nat
  rate : RateMap
  cache : CacheMap
deriving DecidableEq, Repr

/-- The externally observable behaviour of the one LLM call of step 6:
either one of the failure modes the route distinguishes, or a reply text
that fails `JSON.parse`, or a reply text parsing to a JSON value. -/
inductive LlmOutcome where
  | timeout
  | vendorRateLimited
  | failure
  | nonJson
  | json (j : Json)

def rateLimitedMsg : String := "Too many requests. Please wait a moment and try again."
def configErrMsg : String := "Server configuration error — the AI service isn\x27t set up yet."
def llmTimeoutMsg : String := "The AI took too long to respond. Please try a simpler query."
def llmVendor429Msg : String := "You are searching too fast! Please wait 60 seconds and try again."
def llmUnreachableMsg : String := "Could not reach the AI service right now. Please try again shortly."
def llmNonJsonMsg : String := "The AI returned something unexpected. Please try rephrasing your query."
def llmSchemaMsg : String := "The AI response didn\x27t match our expected format. Please try again."

/-- Steps 6-10: the LLM call outcome, `JSON.parse`, zod validation, the
defense-in-depth id filter, the budget re-filter, hint synthesis, and the
cache write on non-empty success.  The returned Bool records that the
collaborator was invoked. -/
def llmStage (st : PipelineState) (userQuery : String) (llm : LlmOutcome) :
    ApiResult × PipelineState × Bool :=
  match llm with
  | .timeout => (.err 502 llmTimeoutMsg, st, true)
  | .vendorRateLimited => (.err 429 llmVendor429Msg, st, true)
  | .failure => (.err 502 llmUnreachableMsg, st, true)
  | .nonJson => (.err 502 llmNonJsonMsg, st, true)
  | .json j =>
    match parseAIResponse j with
    | none => (.err 502 llmSchemaMsg, st, true)
    | some ms =>
      let safeMatches := ms.filter (fun m => validId m.id)
      let filteredMatches := applyBudgetFilter userQuery safeMatches
      if filteredMatches.isEmpty then
        (.ok 200 ⟨[], synthHint userQuery⟩, st, true)
      else
        (.ok 200 ⟨filteredMatches, none⟩,
          ⟨st.now, st.rate, setCache st.now st.cache userQuery filteredMatches⟩, true)

/-- Step 5 followed by steps 6-10: the keyword shortcut (with its budget
filter and unconditional cache write) and, on a shortcut miss, the LLM
stage. -/
def shortcutOrLlm (st : PipelineState) (userQuery : String) (llm : LlmOutcome) :
    ApiResult × PipelineState × Bool :=
  match tryKeywordMatch userQuery with
  | some keywordResult =>
    let filtered := applyBudgetFilter userQuery keywordResult
    (.ok 200 ⟨filtered, none⟩,
      ⟨st.now, st.rate, setCache st.now st.cache userQuery filtered⟩, false)
  | none => llmStage st userQuery llm

/-- The POST handler: rate limit, API-key check, request validation, cache
lookup, keyword shortcut (with budget filter and cache write), then the LLM
stage.  The Bool records whether the collaborator was invoked. -/
def post (st : PipelineState) (ip : String) (apiKey : Option String)
    (body : Option Json) (llm : LlmOutcome) : ApiResult × PipelineState × Bool :=
  let rl := isRateLimited st.now st.rate ip
  let st1 : PipelineState := ⟨st.now, rl.2, st.cache⟩
  if rl.1 then (.err 429 rateLimitedMsg, st1, false)
  else
    match apiKey with
    | none => (.err 500 configErrMsg, st1, false)
    | some _ =>
      match validateRequest body with
      | .error msg => (.err 400 msg, st1, false)
      | .ok userQuery =>
        let gc := getCached st1.now st1.cache userQuery
        let st2 : PipelineState := ⟨st1.now, st1.rate, gc.2⟩
        match gc.1 with
        | some data => (.ok 200 ⟨data, none⟩, st2, false)
        | none => shortcutOrLlm st2 userQuery llm

-- ## Basic lemmas about the state containers

theorem mapGet_mapSet_self {α : Type} (m : List (String × α)) (k : String) (v : α) :
    mapGet (mapSet m k v) k = some v := by
  simp [mapGet, mapSet, List.find?]

theorem getCached_absent (now : Nat) (cache : CacheMap) (query : String)
    (h : mapGet cache (normKey query) = none) :
    getCached now cache query = (none, cache) := by
  simp [getCached, h]

theorem getCached_hit (now : Nat) (cache : CacheMap) (query : String) (e : CacheEntry)
    (h : mapGet cache (normKey query) = some e) (hfresh : ¬ now > e.expiresAt) :
    getCached now cache query = (some e.data, cache) := by
  simp [getCached, h, hfresh]

theorem isRateLimited_true_map (now : Nat) (m : RateMap) (ip : String)
    (h : (isRateLimited now m ip).1 = true) : (isRateLimited now m ip).2 = m := by
  unfold isRateLimited at h ⊢
  cases hm : mapGet m ip with
  | none => rw [hm] at h; simp at h
  | some entry =>
    rw [hm] at h
    by_cases h1 : now > entry.resetAt
    · simp [h1] at h
    · by_cases h2 : entry.count ≥ maxRequests
      · simp [h1, h2]
      · simp [h1, h2] at h

-- ## Reduction lemmas for the POST handler

theorem post_rateLimited (st : PipelineState) (ip : String) (apiKey : Option String)
    (body : Option Json) (llm : LlmOutcome)
    (h : (isRateLimited st.now st.rate ip).1 = true) :
    post st ip apiKey body llm = (.err 429 rateLimitedMsg, st, false) := by
  unfold post
  simp only [h, if_true, isRateLimited_true_map st.now st.rate ip h]

theorem post_reach_llm (st : PipelineState) (ip k : String) (body : Option Json)
    (llm : LlmOutcome) (q : String)
    (hrl : (isRateLimited st.now st.rate ip).1 = false)
    (hv : validateRequest body = .ok q)
    (hcm : mapGet st.cache (normKey q) = none)
    (hkw : tryKeywordMatch q = none) :
    post st ip (some k) body llm =
      llmStage ⟨st.now, (isRateLimited st.now st.rate ip).2, st.cache⟩ q llm := by
  unfold post
  simp only [hrl, Bool.false_eq_true, if_false, hv,
    getCached_absent st.now st.cache q hcm, shortcutOrLlm, hkw]

theorem post_cache_hit (st : PipelineState) (ip k : String) (body : Option Json)
    (llm : LlmOutcome) (q : String) (e : CacheEntry)
    (hrl : (isRateLimited st.now st.rate ip).1 = false)
    (hv : validateRequest body = .ok q)
    (hc : mapGet st.cache (normKey q) = some e)
    (hfresh : ¬ st.now > e.expiresAt) :
    post st ip (some k) body llm =
      (.ok 200 ⟨e.data, none⟩, ⟨st.now, (isRateLimited st.now st.rate ip).2, st.cache⟩,
        false) := by
  unfold post
  simp only [hrl, Bool.false_eq_true, if_false, hv,
    getCached_hit st.now st.cache q e hc hfresh]

-- ## Rate-limiter window behaviour

theorem rlRun_window (ip : String) (ts : List Nat) :
    ∀ (m : RateMap) (c r : Nat), mapGet m ip = some ⟨c, r⟩ → (∀ t ∈ ts, t ≤ r) →
      ∀ i, i < ts.length →
        (rlRun ip ts m).get? i = some (decide (maxRequests ≤ c + i)) := by
  induction ts with
  | nil => intro m c r hm hts i hi; simp at hi
  | cons t ts ih =>
    intro m c r hm hts i hi
    have ht : ¬ t > r := by
      have := hts t (by simp)
      omega
    by_cases hc : maxRequests ≤ c
    · have hstep : isRateLimited t m ip = (true, m) := by
        simp [isRateLimited, hm, ht, hc]
      cases i with
      | zero =>
        simp only [rlRun, hstep, List.get?]
        have : decide (maxRequests ≤ c + 0) = true := by simp; omega
        rw [this]
      | succ i =>
        simp only [rlRun, hstep, List.get?]
        have h1 := ih m c r hm (fun t' ht' => hts t' (by simp [ht'])) i (by simpa using hi)
        rw [h1]
        have e1 : decide (maxRequests ≤ c + i) = true := by simp; omega
        have e2 : decide (maxRequests ≤ c + (i + 1)) = true := by simp; omega
        rw [e1, e2]
    · have hstep : isRateLimited t m ip = (false, mapSet m ip ⟨c + 1, r⟩) := by
        simp [isRateLimited, hm, ht, hc]
      cases i with
      | zero =>
        simp only [rlRun, hstep, List.get?]
        have : decide (maxRequests ≤ c + 0) = false := by simp; omega
        rw [this]
      | succ i =>
        simp only [rlRun, hstep, List.get?]
        have h1 := ih (mapSet m ip ⟨c + 1, r⟩) (c + 1) r (mapGet_mapSet_self m ip ⟨c + 1, r⟩)
          (fun t' ht' => hts t' (by simp [ht'])) i (by simpa using hi)
        rw [h1]
        have e1 : c + 1 + i = c + (i + 1) := by omega
        rw [e1]

/-- Claim C4: within one 60000 ms window the first 10 requests of a client
are allowed and every request from the 11th on is denied; a denied request
gets the 429 rate-limit response from `post` with no other processing and no
state change, regardless of the body; and once `now > resetAt` the entry is
replaced by `count = 1` and the client is allowed again. -/
theorem c4_rate_limit_window (t0 : Nat) (ts : List Nat) (i : Nat) (ip ip2 : String)
    (m2 : RateMap) (e : RateLimitEntry) (now2 : Nat) (st : PipelineState)
    (apiKey : Option String) (body : Option Json) (llm : LlmOutcome)
    (h1 : ∀ t ∈ ts, t ≤ t0 + windowMs) (h2 : i < (t0 :: ts).length)
    (hm : mapGet m2 ip2 = some e) :
    (rlRun ip (t0 :: ts) []).get? i = some (decide (maxRequests ≤ i))
    ∧ (now2 > e.resetAt →
        (isRateLimited now2 m2 ip2).1 = false
        ∧ mapGet (isRateLimited now2 m2 ip2).2 ip2 = some ⟨1, now2 + windowMs⟩)
    ∧ ((isRateLimited st.now st.rate ip).1 = true →
        post st ip apiKey body llm = (.err 429 rateLimitedMsg, st, false)) := by
  refine ⟨?_, ?_, fun h => post_rateLimited st ip apiKey body llm h⟩
  · have hfirst : isRateLimited t0 ([] : RateMap) ip =
        (false, mapSet [] ip ⟨1, t0 + windowMs⟩) := by
      simp [isRateLimited, mapGet]
    cases i with
    | zero =>
      simp only [rlRun, hfirst, List.get?]
      have : decide (maxRequests ≤ 0) = false := by simp [maxRequests]
      rw [this]
    | succ i =>
      simp only [rlRun, hfirst, List.get?]
      have h3 := rlRun_window ip ts (mapSet ([] : RateMap) ip ⟨1, t0 + windowMs⟩) 1
        (t0 + windowMs) (mapGet_mapSet_self ([] : RateMap) ip ⟨1, t0 + windowMs⟩) h1 i
        (by simpa using h2)
      rw [h3]
      have e1 : 1 + i = i + 1 := by omega
      rw [e1]
  · intro hn
    have hstep : isRateLimited now2 m2 ip2 = (false, mapSet m2 ip2 ⟨1, now2 + windowMs⟩) := by
      simp [isRateLimited, hm, hn]
    rw [hstep]
    exact ⟨rfl, mapGet_mapSet_self m2 ip2 ⟨1, now2 + windowMs⟩⟩

/-- Witness for C4 at a concrete run: 12 requests at times 0,1,...,1 — the
11th (index 10) is denied; an expired entry is replaced with count 1; a
rate-limited request gets the 429 from `post` untouched state. -/
theorem c4_rate_limit_window_witness :
    (rlRun "c" (0 :: List.replicate 11 1) []).get? 10 = some true
    ∧ (isRateLimited 51 [("c", ⟨3, 50⟩)] "c").1 = false
    ∧ mapGet (isRateLimited 51 [("c", ⟨3, 50⟩)] "c").2 "c" = some ⟨1, 51 + windowMs⟩
    ∧ post ⟨7, [("c", ⟨10, 60000⟩)], []⟩ "c" (some "key")
        (some (.obj [("query", .str "beaches")])) .timeout =
        (.err 429 rateLimitedMsg, ⟨7, [("c", ⟨10, 60000⟩)], []⟩, false) := by
  have h := c4_rate_limit_window 0 (List.replicate 11 1) 10 "c" "c" [("c", ⟨3, 50⟩)]
    ⟨3, 50⟩ 51 ⟨7, [("c", ⟨10, 60000⟩)], []⟩ (some "key")
    (some (.obj [("query", .str "beaches")])) .timeout
    (by decide) (by decide) (by decide)
  refine ⟨h.1, (h.2.1 (by decide)).1, (h.2.1 (by decide)).2, h.2.2 (by decide)⟩

-- ## Budget extractor rule priority

/-- Claim C7: `extractBudget` applies exactly the first matching rule in
priority order (explicit `under/below/less than/within/up to/max N` beats the
`$N or less` suffix form, which beats the qualitative fallback 60), and at
most one of ceiling/floor is active: the 200 floor of `wantsExpensive` is
consulted by the filter only when no ceiling was extracted. -/
theorem c7_budget_rule_priority (q : String) (n : Nat) (ms : List Match) :
    ((explicitScan (jsToLower q).data = some n → extractBudget q = some n)
    ∧ (explicitScan (jsToLower q).data = none →
        suffixScan (jsToLower q).data = some n → extractBudget q = some n)
    ∧ (explicitScan (jsToLower q).data = none → suffixScan (jsToLower q).data = none →
        wordScan cheapAt true (jsToLower q).data = true → extractBudget q = some 60)
    ∧ (explicitScan (jsToLower q).data = none → suffixScan (jsToLower q).data = none →
        wordScan cheapAt true (jsToLower q).data = false → extractBudget q = none))
    ∧ (extractBudget q = some n → applyBudgetFilter q ms = ms.filter (ceilingPred n))
    ∧ (extractBudget q = none → wantsExpensive q = some 200 →
        applyBudgetFilter q ms = ms.filter (floorPred 200)) := by
  refine ⟨⟨?_, ?_, ?_, ?_⟩, ?_, ?_⟩
  · intro h; simp [extractBudget, h]
  · intro h1 h2; simp [extractBudget, h1, h2]
  · intro h1 h2 h3; simp [extractBudget, h1, h2, h3]
  · intro h1 h2 h3; simp [extractBudget, h1, h2, h3]
  · intro h; simp [applyBudgetFilter, h]
  · intro h1 h2; simp [applyBudgetFilter, h1, h2]

/-- Witness for C7: an explicit ceiling wins over a present qualitative word,
and the ceiling filter is the one applied. -/
theorem c7_budget_rule_priority_witness :
    explicitScan (jsToLower "cheap but under $50").data = some 50
    ∧ wordScan cheapAt true (jsToLower "cheap but under $50").data = true
    ∧ extractBudget "cheap but under $50" = some 50
    ∧ applyBudgetFilter "cheap but under $50" [⟨3, "r"⟩] =
        List.filter (ceilingPred 50) [⟨3, "r"⟩] := by
  have h := c7_budget_rule_priority "cheap but under $50" 50 [⟨3, "r"⟩]
  have he : explicitScan (jsToLower "cheap but under $50").data = some 50 := by decide
  exact ⟨he, by decide, h.1.1 he, h.2.1 (h.1.1 he)⟩

-- ## Oversized-query rejection

/-- Claim C8: a request whose trimmed query exceeds 500 characters is
rejected with the 400 length error independently of the LLM outcome; its
processing stops before any cache access or LLM call (the cache is untouched
and the collaborator flag stays false). -/
theorem c8_oversized_query_rejected (st : PipelineState) (ip k s : String)
    (llm : LlmOutcome)
    (hrl : (isRateLimited st.now st.rate ip).1 = false)
    (hlong : jsLength (jsTrim s) > MAX_QUERY_LENGTH) :
    post st ip (some k) (some (.obj [("query", .str s)])) llm =
      (.err 400 queryTooLongMsg,
        ⟨st.now, (isRateLimited st.now st.rate ip).2, st.cache⟩, false) := by
  have hq : mapGet [("query", Json.str s)] "query" = some (.str s) := rfl
  have hv : validateRequest (some (.obj [("query", .str s)])) = .error queryTooLongMsg := by
    have h1 : ¬ jsLength (jsTrim s) < 1 := by
      have : MAX_QUERY_LENGTH = 500 := rfl
      omega
    simp only [validateRequest, hq]
    rw [if_neg h1, if_pos hlong]
  unfold post
  simp only [hrl, Bool.false_eq_true, if_false, hv]

/-- Witness for C8 on a 501-character query: the length error comes back for
two different collaborator outcomes, with the cache left empty. -/
theorem c8_oversized_query_rejected_witness :
    post ⟨0, [], []⟩ "c" (some "key")
        (some (.obj [("query", .str (String.mk (List.replicate 501 'a')))])) .timeout =
      (.err 400 queryTooLongMsg, ⟨0, [("c", ⟨1, windowMs⟩)], []⟩, false)
    ∧ post ⟨0, [], []⟩ "c" (some "key")
        (some (.obj [("query", .str (String.mk (List.replicate 501 'a')))]))
        (.json (.obj [("matches", .arr [])])) =
      (.err 400 queryTooLongMsg, ⟨0, [("c", ⟨1, windowMs⟩)], []⟩, false) := by
  constructor
  · exact c8_oversized_query_rejected ⟨0, [], []⟩ "c" "key"
      (String.mk (List.replicate 501 'a')) .timeout (by decide) (by decide)
  · exact c8_oversized_query_rejected ⟨0, [], []⟩ "c" "key"
      (String.mk (List.replicate 501 'a')) (.json (.obj [("matches", .arr [])]))
      (by decide) (by decide)

-- ## Schema rejection of out-of-inventory ids

theorem parseMatch_invalid_id (fields : List (String × Json)) (i : Int)
    (hid : mapGet fields "id" = some (.num i)) (hbad : validId i = false) :
    parseMatch (.obj fields) = none := by
  simp only [parseMatch, hid]
  cases hr : mapGet fields "reason" with
  | none => rfl
  | some rj =>
    cases rj <;> simp [hbad]

theorem parseMatches_has_none (pre post0 : List Json) (b : Json)
    (hb : parseMatch b = none) : parseMatches (pre ++ b :: post0) = none := by
  induction pre with
  | nil => simp [parseMatches, hb]
  | cons x xs ih =>
    have hc : (x :: xs) ++ b :: post0 = x :: (xs ++ b :: post0) := rfl
    rw [hc]
    simp only [parseMatches, ih]
    cases parseMatch x <;> rfl

/-- Claim C3: an LLM reply that parses as JSON but whose `matches` array
contains an object with an id outside the inventory id set fails schema
validation as a whole (`parseAIResponse` returns none, nothing is silently
dropped) and the pipeline answers with the 502 schema error, leaving the
cache unwritten. -/
theorem c3_invalid_id_rejects_reply (st : PipelineState) (ip k : String)
    (body : Option Json) (q : String) (jf mf : List (String × Json))
    (pre post0 : List Json) (i : Int)
    (hrl : (isRateLimited st.now st.rate ip).1 = false)
    (hv : validateRequest body = .ok q)
    (hcm : mapGet st.cache (normKey q) = none)
    (hkw : tryKeywordMatch q = none)
    (hm : mapGet jf "matches" = some (.arr (pre ++ .obj mf :: post0)))
    (hid : mapGet mf "id" = some (.num i))
    (hbad : validId i = false) :
    parseAIResponse (.obj jf) = none
    ∧ post st ip (some k) body (.json (.obj jf)) =
      (.err 502 llmSchemaMsg,
        ⟨st.now, (isRateLimited st.now st.rate ip).2, st.cache⟩, true) := by
  have hpm := parseMatch_invalid_id mf i hid hbad
  have hpa : parseAIResponse (.obj jf) = none := by
    simp only [parseAIResponse, hm]
    by_cases hlen : (pre ++ Json.obj mf :: post0).length ≤ 5
    · rw [if_pos hlen]
      exact parseMatches_has_none pre post0 _ hpm
    · rw [if_neg hlen]
  refine ⟨hpa, ?_⟩
  rw [post_reach_llm st ip k body _ q hrl hv hcm hkw]
  simp only [llmStage, hpa]

/-- Witness for C3: a reply listing the unknown id 99 beside nothing else is
rejected wholesale with the 502 schema error. -/
theorem c3_invalid_id_rejects_reply_witness :
    parseAIResponse (.obj [("matches",
        .arr [.obj [("id", .num 99), ("reason", .str "made up")]])]) = none
    ∧ post ⟨0, [], []⟩ "c" (some "key") (some (.obj [("query", .str "mountain escape")]))
        (.json (.obj [("matches",
          .arr [.obj [("id", .num 99), ("reason", .str "made up")]])])) =
      (.err 502 llmSchemaMsg, ⟨0, [("c", ⟨1, windowMs⟩)], []⟩, true) := by
  exact c3_invalid_id_rejects_reply ⟨0, [], []⟩ "c" "key"
    (some (.obj [("query", .str "mountain escape")])) "mountain escape"
    [("matches", .arr [.obj [("id", .num 99), ("reason", .str "made up")]])]
    [("id", .num 99), ("reason", .str "made up")] [] [] 99
    (by decide) rfl rfl rfl rfl rfl (by decide)

-- ## Budget re-filter enforcement

theorem mem_filter_ceiling {c : Nat} {m : Match} {ms : List Match}
    (h : m ∈ ms.filter (ceilingPred c)) :
    ∃ p, packageById m.id = some p ∧ p.price ≤ c := by
  have h2 := (List.mem_filter.mp h).2
  unfold ceilingPred at h2
  cases hp : packageById m.id with
  | none => rw [hp] at h2; simp at h2
  | some p =>
    rw [hp] at h2
    exact ⟨p, rfl, of_decide_eq_true h2⟩

theorem mem_filter_floor {f : Nat} {m : Match} {ms : List Match}
    (h : m ∈ ms.filter (floorPred f)) :
    ∃ p, packageById m.id = some p ∧ f ≤ p.price := by
  have h2 := (List.mem_filter.mp h).2
  unfold floorPred at h2
  cases hp : packageById m.id with
  | none => rw [hp] at h2; simp at h2
  | some p =>
    rw [hp] at h2
    exact ⟨p, rfl, of_decide_eq_true h2⟩

/-- Claim C2: on the LLM path, whenever the extractor detects a ceiling c —
or detects a floor f, which the filter consults only when no ceiling was
found — every match in the final 200 response refers to an inventory item
whose authoritative price respects the bound, whatever the (validated) LLM
reply contained. -/
theorem c2_budget_bound_enforced (st : PipelineState) (ip k : String)
    (body : Option Json) (q : String) (j : Json) (ms : List Match)
    (r : SearchResponse) (st2 : PipelineState) (called : Bool)
    (hrl : (isRateLimited st.now st.rate ip).1 = false)
    (hv : validateRequest body = .ok q)
    (hcm : mapGet st.cache (normKey q) = none)
    (hkw : tryKeywordMatch q = none)
    (hparse : parseAIResponse j = some ms)
    (hpost : post st ip (some k) body (.json j) = (.ok 200 r, st2, called)) :
    (∀ c, extractBudget q = some c →
      ∀ m ∈ r.matches, ∃ p, packageById m.id = some p ∧ p.price ≤ c)
    ∧ (extractBudget q = none → ∀ f, wantsExpensive q = some f →
      ∀ m ∈ r.matches, ∃ p, packageById m.id = some p ∧ f ≤ p.price) := by
  rw [post_reach_llm st ip k body _ q hrl hv hcm hkw] at hpost
  simp only [llmStage, hparse] at hpost
  split at hpost
  · injection hpost with h1 h23
    injection h1 with hs hr
    constructor
    · intro c hc m hm
      rw [← hr] at hm
      simp at hm
    · intro h0 f hw m hm
      rw [← hr] at hm
      simp at hm
  · injection hpost with h1 h23
    injection h1 with hs hr
    have hmr : r.matches = applyBudgetFilter q (List.filter (fun m => validId m.id) ms) := by
      rw [← hr]
    constructor
    · intro c hc m hm
      rw [hmr] at hm
      simp only [applyBudgetFilter, hc] at hm
      exact mem_filter_ceiling hm
    · intro h0 f hw m hm
      rw [hmr] at hm
      simp only [applyBudgetFilter, h0, hw] at hm
      exact mem_filter_floor hm

/-- Witness for C2: for "under $100" a cheating reply naming the $250 safari
(id 3) next to the $80 surf retreat (id 4) comes back with the safari
discarded, and every returned match costs at most $100. -/
theorem c2_budget_bound_enforced_witness :
    (post ⟨0, [], []⟩ "c" (some "key") (some (.obj [("query", .str "under $100")]))
        (.json (.obj [("matches", .arr [
          .obj [("id", .num 3), ("reason", .str "Luxury safari")],
          .obj [("id", .num 4), ("reason", .str "Surf retreat")]])]))).1 =
      .ok 200 ⟨[⟨4, "Surf retreat"⟩], none⟩
    ∧ ∀ m ∈ ([⟨4, "Surf retreat"⟩] : List Match),
        ∃ p, packageById m.id = some p ∧ p.price ≤ 100 := by
  have hpost : post ⟨0, [], []⟩ "c" (some "key")
      (some (.obj [("query", .str "under $100")]))
      (.json (.obj [("matches", .arr [
        .obj [("id", .num 3), ("reason", .str "Luxury safari")],
        .obj [("id", .num 4), ("reason", .str "Surf retreat")]])])) =
      (.ok 200 ⟨[⟨4, "Surf retreat"⟩], none⟩,
        ⟨0, [("c", ⟨1, windowMs⟩)],
          [("under $100", ⟨[⟨4, "Surf retreat"⟩], CACHE_TTL_MS⟩)]⟩, true) := by decide
  have h := c2_budget_bound_enforced ⟨0, [], []⟩ "c" "key"
    (some (.obj [("query", .str "under $100")])) "under $100"
    (.obj [("matches", .arr [
      .obj [("id", .num 3), ("reason", .str "Luxury safari")],
      .obj [("id", .num 4), ("reason", .str "Surf retreat")]])])
    [⟨3, "Luxury safari"⟩, ⟨4, "Surf retreat"⟩]
    ⟨[⟨4, "Surf retreat"⟩], none⟩
    ⟨0, [("c", ⟨1, windowMs⟩)], [("under $100", ⟨[⟨4, "Surf retreat"⟩], CACHE_TTL_MS⟩)]⟩
    true (by decide) rfl rfl rfl rfl hpost
  exact ⟨by rw [hpost], h.1 100 (by decide)⟩

-- ## Infeasible-budget hint

/-- Claim C9: when the detected budget ceiling is satisfied by no inventory
item, any validated LLM reply produces the 200 empty-match response whose
hint names the cheapest available price (45) in the exact route format. -/
theorem c9_infeasible_ceiling_hint (st : PipelineState) (ip k : String)
    (body : Option Json) (q : String) (c : Nat) (j : Json) (ms : List Match)
    (hrl : (isRateLimited st.now st.rate ip).1 = false)
    (hv : validateRequest body = .ok q)
    (hcm : mapGet st.cache (normKey q) = none)
    (hkw : tryKeywordMatch q = none)
    (hc : extractBudget q = some c)
    (hno : travelPackages.all (fun p => decide (c < p.price)) = true)
    (hparse : parseAIResponse j = some ms) :
    minPriceVal = 45
    ∧ (post st ip (some k) body (.json j)).1 =
      .ok 200 ⟨[], some ("No experiences fit a $" ++ toString c ++
        " budget. Our most affordable option starts at $" ++ toString minPriceVal ++
        ". Try increasing your budget.")⟩ := by
  have hcp : ∀ m : Match, ceilingPred c m = false := by
    intro m
    unfold ceilingPred
    cases hp : packageById m.id with
    | none => rfl
    | some p =>
      have hmem : p ∈ travelPackages := List.mem_of_find?_eq_some hp
      have hlt : c < p.price := of_decide_eq_true (List.all_eq_true.mp hno p hmem)
      exact decide_eq_false (by omega)
  have habf : applyBudgetFilter q (List.filter (fun m => validId m.id) ms) = [] := by
    simp only [applyBudgetFilter, hc]
    exact List.filter_eq_nil_iff.mpr (fun a _ => by rw [hcp a]; simp)
  have hwb : travelPackages.filter (fun p => decide (p.price ≤ c)) = [] := by
    refine List.filter_eq_nil_iff.mpr (fun p hp hcon => ?_)
    have hlt : c < p.price := of_decide_eq_true (List.all_eq_true.mp hno p hp)
    have := of_decide_eq_true hcon
    omega
  have hhint : synthHint q = some ("No experiences fit a $" ++ toString c ++
      " budget. Our most affordable option starts at $" ++ toString minPriceVal ++
      ". Try increasing your budget.") := by
    simp [synthHint, hc, hwb]
  refine ⟨rfl, ?_⟩
  rw [post_reach_llm st ip k body _ q hrl hv hcm hkw]
  simp only [llmStage, hparse, habf, List.isEmpty_nil, if_pos, hhint]

/-- Witness for C9: the query "under $10" against the $45-cheapest inventory
yields the exact infeasible-budget hint. -/
theorem c9_infeasible_ceiling_hint_witness :
    extractBudget "under $10" = some 10
    ∧ (post ⟨0, [], []⟩ "c" (some "key") (some (.obj [("query", .str "under $10")]))
        (.json (.obj [("matches", .arr [])]))).1 =
      .ok 200 ⟨[], some ("No experiences fit a $10 budget. Our most affordable option starts at $45. Try increasing your budget.")⟩ := by
  have h := c9_infeasible_ceiling_hint ⟨0, [], []⟩ "c" "key"
    (some (.obj [("query", .str "under $10")])) "under $10" 10
    (.obj [("matches", .arr [])]) []
    (by decide) rfl rfl rfl (by decide) (by decide) rfl
  exact ⟨by decide, h.2⟩

-- ## Cache-write discipline

/-- Counterexample to claim C1: a request reaching the success path with an
empty filtered match list (the 200 `{matches: [], hint}` outcome for
"under $10" with a validated reply) does NOT write the response into the
cache — after responding, the normalized key is still absent (the cache map
is untouched), unlike the non-empty success path. -/
theorem c1_empty_success_not_cached_counterexample :
    (post ⟨0, [], []⟩ "c" (some "key") (some (.obj [("query", .str "under $10")]))
        (.json (.obj [("matches",
          .arr [.obj [("id", .num 2), ("reason", .str "Walk the fort")]])]))).1 =
      .ok 200 ⟨[], some ("No experiences fit a $10 budget. Our most affordable option starts at $45. Try increasing your budget.")⟩
    ∧ mapGet (post ⟨0, [], []⟩ "c" (some "key")
        (some (.obj [("query", .str "under $10")]))
        (.json (.obj [("matches",
          .arr [.obj [("id", .num 2), ("reason", .str "Walk the fort")]])]))).2.1.cache
        (normKey "under $10") = none := by
  constructor <;> decide

/-- Claim C1 (amended): on the LLM path the cache is written exactly for the
non-empty filtered success outcome, under the normalized query key; the
empty-match 200 outcome (with or without hint) and every failure outcome
(timeout, vendor rate limit, transport failure, non-JSON, schema error)
leave the cache exactly as it was. -/
theorem c1_cache_write_discipline (st : PipelineState) (ip k : String)
    (body : Option Json) (llm : LlmOutcome) (q : String)
    (hrl : (isRateLimited st.now st.rate ip).1 = false)
    (hv : validateRequest body = .ok q)
    (hcm : mapGet st.cache (normKey q) = none)
    (hkw : tryKeywordMatch q = none) :
    (post st ip (some k) body llm).2.1.cache =
      match llm with
      | .json j =>
        match parseAIResponse j with
        | some ms =>
          if (applyBudgetFilter q (ms.filter (fun m => validId m.id))).isEmpty then st.cache
          else setCache st.now st.cache q
            (applyBudgetFilter q (ms.filter (fun m => validId m.id)))
        | none => st.cache
      | _ => st.cache := by
  rw [post_reach_llm st ip k body llm q hrl hv hcm hkw]
  cases llm with
  | json j =>
    cases hp : parseAIResponse j with
    | none => simp [llmStage, hp]
    | some ms =>
      simp only [llmStage, hp]
      split
      · next hfe => simp [hfe]
      · next hfe => simp [hfe]
  | timeout => rfl
  | vendorRateLimited => rfl
  | failure => rfl
  | nonJson => rfl

/-- Witness for C1 (amended): a non-keyword query with a validated non-empty
reply is cached under its normalized key; the same query with a timeout
outcome leaves the cache empty. -/
theorem c1_cache_write_discipline_witness :
    (post ⟨0, [], []⟩ "c" (some "key") (some (.obj [("query", .str "history walks")]))
        (.json (.obj [("matches",
          .arr [.obj [("id", .num 2), ("reason", .str "Heritage wander")]])]))).2.1.cache =
      setCache 0 [] "history walks" [⟨2, "Heritage wander"⟩]
    ∧ (post ⟨0, [], []⟩ "c" (some "key")
        (some (.obj [("query", .str "history walks")])) .timeout).2.1.cache = [] := by
  constructor
  · have h := c1_cache_write_discipline ⟨0, [], []⟩ "c" "key"
      (some (.obj [("query", .str "history walks")]))
      (.json (.obj [("matches",
        .arr [.obj [("id", .num 2), ("reason", .str "Heritage wander")]])]))
      "history walks" (by decide) rfl rfl rfl
    rw [h]
    decide
  · have h := c1_cache_write_discipline ⟨0, [], []⟩ "c" "key"
      (some (.obj [("query", .str "history walks")])) .timeout
      "history walks" (by decide) rfl rfl rfl
    rw [h]

-- ## Repeat-query behaviour

theorem shortcut_ok_nonempty (st : PipelineState) (q : String) (llm : LlmOutcome)
    (r : SearchResponse) (st2 : PipelineState) (called : Bool)
    (h : shortcutOrLlm st q llm = (.ok 200 r, st2, called))
    (hne : r.matches ≠ []) :
    r.hint = none
    ∧ ∃ e : CacheEntry, mapGet st2.cache (normKey q) = some e ∧ e.data = r.matches := by
  unfold shortcutOrLlm at h
  cases hkw : tryKeywordMatch q with
  | some kw =>
    simp only [hkw] at h
    injection h with h1 h23
    injection h23 with h2 h3
    injection h1 with hs hr
    refine ⟨by rw [← hr], ⟨applyBudgetFilter q kw, st.now + CACHE_TTL_MS⟩, ?_, by rw [← hr]⟩
    rw [← h2]
    exact mapGet_mapSet_self st.cache (normKey q) ⟨applyBudgetFilter q kw, st.now + CACHE_TTL_MS⟩
  | none =>
    simp only [hkw] at h
    cases llm with
    | timeout => simp [llmStage] at h
    | vendorRateLimited => simp [llmStage] at h
    | failure => simp [llmStage] at h
    | nonJson => simp [llmStage] at h
    | json j =>
      cases hp : parseAIResponse j with
      | none => simp [llmStage, hp] at h
      | some ms =>
        simp only [llmStage, hp] at h
        split at h
        · injection h with h1 h23
          injection h1 with hs hr
          rw [← hr] at hne
          exact absurd rfl hne
        · injection h with h1 h23
          injection h23 with h2 h3
          injection h1 with hs hr
          refine ⟨by rw [← hr],
            ⟨applyBudgetFilter q (ms.filter (fun m => validId m.id)), st.now + CACHE_TTL_MS⟩,
            ?_, by rw [← hr]⟩
          rw [← h2]
          exact mapGet_mapSet_self st.cache (normKey q) _

theorem post_ok_nonempty (st st2 : PipelineState) (ip k : String) (body : Option Json)
    (llm : LlmOutcome) (q : String) (r : SearchResponse) (called : Bool)
    (hv : validateRequest body = .ok q)
    (h : post st ip (some k) body llm = (.ok 200 r, st2, called))
    (hne : r.matches ≠ []) :
    r.hint = none
    ∧ ∃ e : CacheEntry, mapGet st2.cache (normKey q) = some e ∧ e.data = r.matches := by
  cases hrl : (isRateLimited st.now st.rate ip).1 with
  | true =>
    rw [post_rateLimited st ip (some k) body llm hrl] at h
    simp at h
  | false =>
    unfold post at h
    simp only [hrl, Bool.false_eq_true, if_false, hv] at h
    cases hg : mapGet st.cache (normKey q) with
    | some e =>
      by_cases hex : st.now > e.expiresAt
      · have hgc : getCached st.now st.cache q = (none, mapDel st.cache (normKey q)) := by
          simp [getCached, hg, hex]
        rw [hgc] at h
        exact shortcut_ok_nonempty _ q llm r st2 called h hne
      · rw [getCached_hit st.now st.cache q e hg hex] at h
        injection h with h1 h23
        injection h23 with h2 h3
        injection h1 with hs hr
        refine ⟨by rw [← hr], e, ?_, by rw [← hr]⟩
        rw [← h2]
        exact hg
    | none =>
      rw [getCached_absent st.now st.cache q hg] at h
      exact shortcut_ok_nonempty _ q llm r st2 called h hne

/-- Counterexample to claim C5: for the valid query "under $10" (a success
outcome with empty matches, which the route does not cache) the second
identical request within the TTL still invokes the LLM collaborator. -/
theorem c5_repeat_invokes_llm_counterexample :
    (post ⟨0, [], []⟩ "c" (some "key") (some (.obj [("query", .str "under $10")]))
        (.json (.obj [("matches", .arr [])]))).1 =
      .ok 200 ⟨[], some ("No experiences fit a $10 budget. Our most affordable option starts at $45. Try increasing your budget.")⟩
    ∧ (post (post ⟨0, [], []⟩ "c" (some "key")
        (some (.obj [("query", .str "under $10")]))
        (.json (.obj [("matches", .arr [])]))).2.1 "c" (some "key")
        (some (.obj [("query", .str "under $10")]))
        (.json (.obj [("matches", .arr [])]))).2.2 = true := by
  constructor <;> decide

/-- Claim C5 (amended): if the first request's 200 response has a non-empty
match list (the outcomes the route caches: keyword shortcut, cache hit, or
non-empty LLM success), then a second identical request before the entry
expires returns the byte-identical response body from the cache and never
invokes the collaborator. -/
theorem c5_repeat_hits_cache (st st2 : PipelineState) (ip k : String)
    (body : Option Json) (llm llm2 : LlmOutcome) (q : String) (r : SearchResponse)
    (called : Bool) (t2 : Nat)
    (hv : validateRequest body = .ok q)
    (h1 : post st ip (some k) body llm = (.ok 200 r, st2, called))
    (hne : r.matches ≠ [])
    (hrl2 : (isRateLimited t2 st2.rate ip).1 = false)
    (hfresh : Option.all (fun e => decide (t2 ≤ e.expiresAt))
      (mapGet st2.cache (normKey q)) = true) :
    (post ⟨t2, st2.rate, st2.cache⟩ ip (some k) body llm2).1 = .ok 200 r
    ∧ (post ⟨t2, st2.rate, st2.cache⟩ ip (some k) body llm2).2.2 = false := by
  obtain ⟨hhint, e, he, hdata⟩ :=
    post_ok_nonempty st st2 ip k body llm q r called hv h1 hne
  have hex : ¬ t2 > e.expiresAt := by
    rw [he] at hfresh
    simp only [Option.all] at hfresh
    have := of_decide_eq_true hfresh
    omega
  rw [post_cache_hit ⟨t2, st2.rate, st2.cache⟩ ip k body llm2 q e hrl2 hv he hex]
  refine ⟨?_, rfl⟩
  show ApiResult.ok 200 ⟨e.data, none⟩ = .ok 200 r
  rw [hdata, ← hhint]

/-- Witness for C5 (amended): "beaches" is answered by the shortcut and
cached; the identical request 200 s later returns the same body from the
cache with the collaborator never invoked (even though the collaborator stub
would time out). -/
theorem c5_repeat_hits_cache_witness :
    (post ⟨200000, [("c", ⟨1, windowMs⟩)],
        [("beaches", ⟨[⟨4, "Matched \x27beach\x27 tag."⟩], CACHE_TTL_MS⟩)]⟩ "c"
        (some "key") (some (.obj [("query", .str "beaches")])) .timeout).1 =
      .ok 200 ⟨[⟨4, "Matched \x27beach\x27 tag."⟩], none⟩
    ∧ (post ⟨200000, [("c", ⟨1, windowMs⟩)],
        [("beaches", ⟨[⟨4, "Matched \x27beach\x27 tag."⟩], CACHE_TTL_MS⟩)]⟩ "c"
        (some "key") (some (.obj [("query", .str "beaches")])) .timeout).2.2 = false := by
  exact c5_repeat_hits_cache ⟨0, [], []⟩
    ⟨0, [("c", ⟨1, windowMs⟩)], [("beaches", ⟨[⟨4, "Matched \x27beach\x27 tag."⟩], CACHE_TTL_MS⟩)]⟩
    "c" "key" (some (.obj [("query", .str "beaches")])) .timeout .timeout "beaches"
    ⟨[⟨4, "Matched \x27beach\x27 tag."⟩], none⟩ false 200000
    rfl (by decide) (by decide) (by decide) (by decide)

-- ## Keyword shortcut round trips

/-- Claim C6: for every inventory item, a query equal to one of its tags
that the keyword map resolves takes the shortcut path (collaborator never
invoked, here visible as a timeout stub being irrelevant) and returns a 200
match list containing that item's id with a reason naming the matched tag. -/
theorem c6_tag_query_roundtrip :
    ∀ pkg ∈ travelPackages, ∀ t ∈ pkg.tags,
      (mapGet TAG_KEYWORD_MAP t).isSome = true →
      (post ⟨0, [], []⟩ "client" (some "key") (some (.obj [("query", .str t)])) .timeout).2.2
          = false
      ∧ (post ⟨0, [], []⟩ "client" (some "key") (some (.obj [("query", .str t)])) .timeout).1
          = .ok 200 ⟨(tryKeywordMatch t).getD [], none⟩
      ∧ ∃ m ∈ (tryKeywordMatch t).getD [], m.id = (pkg.id : Int)
          ∧ isInfixOfB t.data m.reason.data = true := by decide

/-- Witness for C6 at the surf retreat (id 4) and its tag "beach". -/
theorem c6_tag_query_roundtrip_witness :
    (post ⟨0, [], []⟩ "client" (some "key") (some (.obj [("query", .str "beach")]))
        .timeout).2.2 = false
    ∧ (post ⟨0, [], []⟩ "client" (some "key") (some (.obj [("query", .str "beach")]))
        .timeout).1 = .ok 200 ⟨(tryKeywordMatch "beach").getD [], none⟩
    ∧ ∃ m ∈ (tryKeywordMatch "beach").getD [], m.id = ((4 : Nat) : Int)
        ∧ isInfixOfB "beach".data m.reason.data = true := by
  exact c6_tag_query_roundtrip ⟨4, "Surf & Chill Retreat", "Arugam Bay", 80,
    ["beach", "surfing", "young-vibe"]⟩ (by decide) "beach" (by decide) (by decide)

/-- Claim C10: every key of the keyword map contains no budget phrase
(neither ceiling nor floor is extracted), every tag it maps to occurs on at
least one inventory item, the budget filter on the shortcut path removes
nothing, and the resulting 200 response has at least one match and no hint
field. -/
theorem c10_keyword_response_nonempty_no_hint :
    ∀ kv ∈ TAG_KEYWORD_MAP,
      extractBudget kv.1 = none
      ∧ wantsExpensive kv.1 = none
      ∧ (∀ tag ∈ kv.2, ∃ p ∈ travelPackages, tag ∈ p.tags)
      ∧ (tryKeywordMatch kv.1).getD [] ≠ []
      ∧ applyBudgetFilter kv.1 ((tryKeywordMatch kv.1).getD []) =
          (tryKeywordMatch kv.1).getD []
      ∧ (post ⟨0, [], []⟩ "client" (some "key") (some (.obj [("query", .str kv.1)]))
          .timeout).1 = .ok 200 ⟨(tryKeywordMatch kv.1).getD [], none⟩ := by decide

/-- Witness for C10 at the "wildlife" key. -/
theorem c10_keyword_response_nonempty_no_hint_witness :
    extractBudget "wildlife" = none
    ∧ wantsExpensive "wildlife" = none
    ∧ (∀ tag ∈ ["animals"], ∃ p ∈ travelPackages, tag ∈ p.tags)
    ∧ (tryKeywordMatch "wildlife").getD [] ≠ []
    ∧ applyBudgetFilter "wildlife" ((tryKeywordMatch "wildlife").getD []) =
        (tryKeywordMatch "wildlife").getD []
    ∧ (post ⟨0, [], []⟩ "client" (some "key") (some (.obj [("query", .str "wildlife")]))
        .timeout).1 = .ok 200 ⟨(tryKeywordMatch "wildlife").getD [], none⟩ := by
  exact c10_keyword_response_nonempty_no_hint ("wildlife", ["animals"]) (by decide)

end SmartTravelScout
